import Mathlib

/-!
Shallow embedding of `collect_fees_quote` from
`rust-sdk/core/src/quote/fees.rs` (whirlpools), together with the
transfer-fee adjuster it calls, and theorems settling the spec claims.

Machine integers are modelled as `Nat` with explicit bounds / modular
reduction where the Rust semantics demand it:
- `u128::saturating_sub` and `U256::saturating_sub` are truncated `Nat`
  subtraction (which saturates at zero by definition);
- `U256::saturating_mul` clamps the product at `2^256 - 1`;
- `Shr::shr 64` on `U256` is division by `2^64`;
- `u128::try_from(U256)` is `some` exactly when the value fits in 128
  bits (`.unwrap()` on the `Err` case is a Rust panic, modelled as the
  whole function returning `none`);
- the plain `+` on `u128` (release-profile semantics) wraps modulo
  `2^128`.
-/

namespace Whirlpools

def U128_MAX : Nat := 2 ^ 128 - 1

def U256_MAX : Nat := 2 ^ 256 - 1

/-- `u128::saturating_sub`: truncated subtraction, saturating at zero. -/
def u128_saturating_sub (a b : Nat) : Nat := a - b

/-- `ethnum::U256::saturating_sub`: truncated subtraction, saturating at zero. -/
def u256_saturating_sub (a b : Nat) : Nat := a - b

/-- `ethnum::U256::saturating_mul`: product clamped at `U256::MAX`. -/
def u256_saturating_mul (a b : Nat) : Nat := min (a * b) U256_MAX

/-- `U256::shr 64`: logical right shift by 64 bits. -/
def u256_shr64 (a : Nat) : Nat := a / 2 ^ 64

/-- `u128::try_from` on a `U256` value: succeeds iff the value fits in 128 bits. -/
def u256_to_u128 (a : Nat) : Option Nat :=
  if a ≤ U128_MAX then some a else none

/-- Plain `+` on `u128` (release profile): wraps modulo `2^128`. -/
def u128_add (a b : Nat) : Nat := (a + b) % 2 ^ 128

/-- Pool state (the fields of `Whirlpool` read by `collect_fees_quote`). -/
structure Whirlpool where
  tick_current_index : Int
  fee_growth_global_a : Nat
  fee_growth_global_b : Nat
deriving DecidableEq

/-- Position state (the fields of `Position` read by `collect_fees_quote`).
`fee_owed_a` / `fee_owed_b` are `u64` in the source (note the
`as u128` cast at the call site). -/
structure Position where
  liquidity : Nat
  tick_lower_index : Int
  tick_upper_index : Int
  fee_growth_checkpoint_a : Nat
  fee_growth_checkpoint_b : Nat
  fee_owed_a : Nat
  fee_owed_b : Nat
deriving DecidableEq

/-- Tick boundary state (the fields of `Tick` read by `collect_fees_quote`). -/
structure Tick where
  fee_growth_outside_a : Nat
  fee_growth_outside_b : Nat
deriving DecidableEq

/-- Transfer fee descriptor: basis points plus an absolute cap. -/
structure TransferFee where
  fee_bps : Nat
  max_fee : Nat
deriving DecidableEq

/-- Result record of `collect_fees_quote`. -/
structure CollectFeesQuote where
  fee_owed_a : Nat
  fee_owed_b : Nat
deriving DecidableEq

/-- Modelled from the spec: `TransferFee::new(fee_bps)` (the constructor is not
under `src/`). It sets the proportional rate and leaves the absolute cap at its
maximum (`u64::MAX`), i.e. effectively uncapped; the repository's own test
`test_collect_transfer_fee` (fees at 124 and 425 exceed no cap) pins this. -/
def TransferFee.new (bps : Nat) : TransferFee :=
  { fee_bps := bps, max_fee := 2 ^ 64 - 1 }

/-- Modelled from the spec: `adjust_amount(raw_amount, schedule, inverse)` (the
definition is not under `src/`; only its call site is). When the schedule is
absent the raw amount is returned unchanged. When present, the fee is
`min(cap, ceil(raw_amount * basis_points / 10_000))` and the non-inverse
direction returns `raw_amount - fee` saturating at zero; the inverse direction
adds the fee instead (the call site in `collect_fees_quote` always passes
`false`). The ceiling rounding is pinned by the repository's own test
`test_collect_transfer_fee` (616 → 492 under 2000 bps forces a fee of 124,
and 849 → 424 under 5000 bps forces a fee of 425). -/
def adjust_amount (raw_amount : Nat) (transfer_fee : Option TransferFee)
    (inverse : Bool) : Nat :=
  match transfer_fee with
  | none => raw_amount
  | some tf =>
    let fee := min tf.max_fee ((raw_amount * tf.fee_bps + 9999) / 10000)
    if inverse then raw_amount + fee else raw_amount - fee

/-- Lines 31, 36–43 of `fees.rs`: `fee_growth_below_{a,b}` starts as the lower
tick's outside snapshot and is replaced by `global.saturating_sub(outside)`
exactly when `tick_current_index < tick_lower_index`. -/
def fee_growth_below (tick_current tick_lower : Int) (global outside : Nat) : Nat :=
  if tick_current < tick_lower then u128_saturating_sub global outside else outside

/-- Lines 32, 45–52 of `fees.rs`: `fee_growth_above_{a,b}` starts as the upper
tick's outside snapshot and is replaced by `global.saturating_sub(outside)`
exactly when `tick_current_index >= tick_upper_index`. -/
def fee_growth_above (tick_current tick_upper : Int) (global outside : Nat) : Nat :=
  if tick_current ≥ tick_upper then u128_saturating_sub global outside else outside

/-- Lines 54–62 of `fees.rs`: growth inside the range, derived left to right
with saturating subtractions. -/
def fee_growth_inside (tick_current tick_lower tick_upper : Int)
    (global outside_lower outside_upper : Nat) : Nat :=
  u128_saturating_sub
    (u128_saturating_sub global
      (fee_growth_below tick_current tick_lower global outside_lower))
    (fee_growth_above tick_current tick_upper global outside_upper)

/-- Lines 64–72 of `fees.rs`: widen to `U256`, subtract the checkpoint
(saturating), multiply by liquidity (saturating), shift right by 64. -/
def fee_owed_delta_wide (inside checkpoint liquidity : Nat) : Nat :=
  u256_shr64 (u256_saturating_mul (u256_saturating_sub inside checkpoint) liquidity)

/-- The wide (pre-narrowing) fee-owed delta for token A of a full input. -/
def delta_wide_a (wp : Whirlpool) (pos : Position) (tl tu : Tick) : Nat :=
  fee_owed_delta_wide
    (fee_growth_inside wp.tick_current_index pos.tick_lower_index pos.tick_upper_index
      wp.fee_growth_global_a tl.fee_growth_outside_a tu.fee_growth_outside_a)
    pos.fee_growth_checkpoint_a pos.liquidity

/-- The wide (pre-narrowing) fee-owed delta for token B of a full input. -/
def delta_wide_b (wp : Whirlpool) (pos : Position) (tl tu : Tick) : Nat :=
  fee_owed_delta_wide
    (fee_growth_inside wp.tick_current_index pos.tick_lower_index pos.tick_upper_index
      wp.fee_growth_global_b tl.fee_growth_outside_b tu.fee_growth_outside_b)
    pos.fee_growth_checkpoint_b pos.liquidity

/-- `collect_fees_quote` (lines 23–87 of `fees.rs`). The two
`try_into().unwrap()` calls at lines 74–75 panic when a shifted product does
not fit back into `u128`; a panic is modelled as `none`. -/
def collect_fees_quote (wp : Whirlpool) (pos : Position) (tl tu : Tick)
    (transfer_fee_a transfer_fee_b : Option TransferFee) : Option CollectFeesQuote :=
  match u256_to_u128 (delta_wide_a wp pos tl tu), u256_to_u128 (delta_wide_b wp pos tl tu) with
  | some fee_owed_delta_a, some fee_owed_delta_b =>
    let withdrawable_fee_a := u128_add pos.fee_owed_a fee_owed_delta_a
    let withdrawable_fee_b := u128_add pos.fee_owed_b fee_owed_delta_b
    some
      { fee_owed_a := adjust_amount withdrawable_fee_a transfer_fee_a false
        fee_owed_b := adjust_amount withdrawable_fee_b transfer_fee_b false }
  | _, _ => none

/-- The fixture `test_whirlpool` from the source's test module. -/
def test_whirlpool (tick_index : Int) : Whirlpool :=
  { tick_current_index := tick_index
    fee_growth_global_a := 800
    fee_growth_global_b := 1000 }

/-- The fixture `test_position` from the source's test module. -/
def test_position : Position :=
  { liquidity := 10000000000000000000
    tick_lower_index := 5
    tick_upper_index := 10
    fee_growth_checkpoint_a := 300
    fee_growth_checkpoint_b := 500
    fee_owed_a := 400
    fee_owed_b := 600 }

/-- The fixture `test_tick` from the source's test module. -/
def test_tick : Tick :=
  { fee_growth_outside_a := 50
    fee_growth_outside_b := 20 }

/-- Helper: the product of two 128-bit values always fits in 256 bits. -/
theorem mul_le_u256_max (a b : Nat) (ha : a ≤ U128_MAX) (hb : b ≤ U128_MAX) :
    a * b ≤ U256_MAX := by
  calc a * b ≤ U128_MAX * U128_MAX := Nat.mul_le_mul ha hb
    _ ≤ U256_MAX := by norm_num [U128_MAX, U256_MAX]

/-- Helper: the saturating 256-bit multiply is exact on 128-bit operands. -/
theorem u256_saturating_mul_exact (a b : Nat) (ha : a ≤ U128_MAX) (hb : b ≤ U128_MAX) :
    u256_saturating_mul a b = a * b := by
  have h := mul_le_u256_max a b ha hb
  simpa [u256_saturating_mul] using Nat.min_eq_left h

/-- Helper: `collect_fees_quote` returns `none` (a Rust panic at the
`try_into().unwrap()` of lines 74–75) exactly when one of the shifted wide
deltas exceeds `u128::MAX`. -/
theorem collect_fees_quote_eq_none_iff (wp : Whirlpool) (pos : Position) (tl tu : Tick)
    (fa fb : Option TransferFee) :
    collect_fees_quote wp pos tl tu fa fb = none ↔
      (U128_MAX < delta_wide_a wp pos tl tu ∨ U128_MAX < delta_wide_b wp pos tl tu) := by
  by_cases hA : delta_wide_a wp pos tl tu ≤ U128_MAX <;>
    by_cases hB : delta_wide_b wp pos tl tu ≤ U128_MAX <;>
    simp [collect_fees_quote, u256_to_u128, hA, hB] <;> omega

/-- Helper: when both shifted deltas fit in 128 bits, `collect_fees_quote`
returns the quote assembled from the banked amounts, the deltas, and the
transfer-fee adjuster. -/
theorem collect_fees_quote_eq_some (wp : Whirlpool) (pos : Position) (tl tu : Tick)
    (fa fb : Option TransferFee)
    (hA : delta_wide_a wp pos tl tu ≤ U128_MAX)
    (hB : delta_wide_b wp pos tl tu ≤ U128_MAX) :
    collect_fees_quote wp pos tl tu fa fb =
      some
        { fee_owed_a :=
            adjust_amount (u128_add pos.fee_owed_a (delta_wide_a wp pos tl tu)) fa false
          fee_owed_b :=
            adjust_amount (u128_add pos.fee_owed_b (delta_wide_b wp pos tl tu)) fb false } := by
  simp [collect_fees_quote, u256_to_u128, hA, hB]

/-- C8: on the concrete scenario inputs, the quote is (616, 849) with no
transfer fees, and (492, 424) with a 2000 bps fee on token A and a 5000 bps
fee on token B. -/
theorem c8_concrete_scenarios :
    collect_fees_quote (test_whirlpool 7) test_position test_tick test_tick none none =
      some { fee_owed_a := 616, fee_owed_b := 849 } ∧
    collect_fees_quote (test_whirlpool 7) test_position test_tick test_tick
        (some (TransferFee.new 2000)) (some (TransferFee.new 5000)) =
      some { fee_owed_a := 492, fee_owed_b := 424 } := by
  constructor <;> decide

/-- C3: the below-range correction replaces the lower snapshot with
`global.saturating_sub(outside)` exactly when the current tick is strictly
below the lower tick, and the above-range correction fires exactly when the
current tick is at or above the upper tick; hence a tick equal to the lower
boundary leaves the lower snapshot uncorrected (in-range) while a tick equal
to the upper boundary triggers the upper correction (out-of-range). -/
theorem c3_boundary_conditions :
    (∀ (tc tl : Int) (g o : Nat), tc < tl →
      fee_growth_below tc tl g o = u128_saturating_sub g o) ∧
    (∀ (tc tl : Int) (g o : Nat), tl ≤ tc →
      fee_growth_below tc tl g o = o) ∧
    (∀ (tc tu : Int) (g o : Nat), tu ≤ tc →
      fee_growth_above tc tu g o = u128_saturating_sub g o) ∧
    (∀ (tc tu : Int) (g o : Nat), tc < tu →
      fee_growth_above tc tu g o = o) ∧
    (∀ (t : Int) (g o : Nat), fee_growth_below t t g o = o) ∧
    (∀ (t : Int) (g o : Nat), fee_growth_above t t g o = u128_saturating_sub g o) := by
  refine ⟨?_, ?_, ?_, ?_, ?_, ?_⟩
  · intro tc tl g o h
    simp [fee_growth_below, h]
  · intro tc tl g o h
    simp [fee_growth_below, not_lt.mpr h]
  · intro tc tu g o h
    simp [fee_growth_above, h]
  · intro tc tu g o h
    simp [fee_growth_above, not_le.mpr h]
  · intro t g o
    simp [fee_growth_below]
  · intro t g o
    simp [fee_growth_above]

/-- Witness for C3 at concrete inputs. -/
theorem c3_boundary_conditions_witness :
    fee_growth_below 3 5 10 4 = u128_saturating_sub 10 4 ∧
    fee_growth_below 5 5 10 4 = 4 ∧
    fee_growth_above 10 10 10 4 = u128_saturating_sub 10 4 ∧
    fee_growth_above 9 10 10 4 = 4 :=
  ⟨c3_boundary_conditions.1 3 5 10 4 (by decide),
   c3_boundary_conditions.2.1 5 5 10 4 (by decide),
   c3_boundary_conditions.2.2.1 10 10 10 4 (by decide),
   c3_boundary_conditions.2.2.2.1 9 10 10 4 (by decide)⟩

/-- C4: every accumulator subtraction in `collect_fees_quote` saturates at
zero — whenever the subtrahend exceeds the minuend the result is exactly zero
— and consequently the derived inside growth never exceeds the global
accumulator (no wrapped values). -/
theorem c4_saturating_subtractions :
    (∀ a b : Nat, a < b → u128_saturating_sub a b = 0) ∧
    (∀ a b : Nat, a < b → u256_saturating_sub a b = 0) ∧
    (∀ (tc tl tu : Int) (g ol ou : Nat),
      fee_growth_inside tc tl tu g ol ou ≤ g) := by
  refine ⟨?_, ?_, ?_⟩
  · intro a b h
    simp [u128_saturating_sub, Nat.sub_eq_zero_of_le (Nat.le_of_lt h)]
  · intro a b h
    simp [u256_saturating_sub, Nat.sub_eq_zero_of_le (Nat.le_of_lt h)]
  · intro tc tl tu g ol ou
    calc fee_growth_inside tc tl tu g ol ou
        ≤ u128_saturating_sub g (fee_growth_below tc tl g ol) := Nat.sub_le _ _
      _ ≤ g := Nat.sub_le _ _

/-- Witness for C4 at concrete inputs. -/
theorem c4_saturating_subtractions_witness :
    (3 : Nat) < 5 ∧ u128_saturating_sub 3 5 = 0 ∧ u256_saturating_sub 3 5 = 0 :=
  ⟨by decide, c4_saturating_subtractions.1 3 5 (by decide),
   c4_saturating_subtractions.2.1 3 5 (by decide)⟩

/-- C5: for any growth delta and liquidity within 128-bit range, the wide
pipeline (saturating multiply then right-shift by 64) equals the unbounded
computation `(growth_delta * liquidity) >> 64`; in particular the full
`fee_owed_delta` pipeline equals the unbounded value of the saturated
checkpoint delta times liquidity, shifted right by 64. -/
theorem c5_fixed_point_consistency :
    (∀ d l : Nat, d ≤ U128_MAX → l ≤ U128_MAX →
      u256_shr64 (u256_saturating_mul d l) = d * l / 2 ^ 64) ∧
    (∀ inside cp l : Nat, inside ≤ U128_MAX → l ≤ U128_MAX →
      fee_owed_delta_wide inside cp l = u256_saturating_sub inside cp * l / 2 ^ 64) := by
  constructor
  · intro d l hd hl
    rw [u256_saturating_mul_exact d l hd hl, u256_shr64]
  · intro inside cp l hi hl
    have hd : u256_saturating_sub inside cp ≤ U128_MAX :=
      le_trans (Nat.sub_le _ _) hi
    rw [fee_owed_delta_wide, u256_saturating_mul_exact _ l hd hl, u256_shr64]

/-- Witness for C5 at concrete inputs. -/
theorem c5_fixed_point_consistency_witness :
    5 * 2 ^ 64 ≤ U128_MAX ∧ (3 : Nat) ≤ U128_MAX ∧
    u256_shr64 (u256_saturating_mul (5 * 2 ^ 64) 3) = 5 * 2 ^ 64 * 3 / 2 ^ 64 :=
  ⟨by decide, by decide,
   c5_fixed_point_consistency.1 (5 * 2 ^ 64) 3 (by decide) (by decide)⟩

/-- C10: the saturating 256-bit multiply inside `collect_fees_quote` never
actually saturates: for 128-bit operands it returns the exact mathematical
product. -/
theorem c10_mul_never_saturates (a b : Nat) (ha : a ≤ U128_MAX) (hb : b ≤ U128_MAX) :
    u256_saturating_mul a b = a * b :=
  u256_saturating_mul_exact a b ha hb

/-- Witness for C10 at concrete inputs. -/
theorem c10_mul_never_saturates_witness :
    2 ^ 127 ≤ U128_MAX ∧ (2 : Nat) ≤ U128_MAX ∧
    u256_saturating_mul (2 ^ 127) 2 = 2 ^ 127 * 2 :=
  ⟨by decide, by decide, c10_mul_never_saturates (2 ^ 127) 2 (by decide) (by decide)⟩

/-- An input whose token-A growth delta times liquidity, shifted right by 64,
exceeds `u128::MAX`: global growth `2^128 - 1`, zero snapshots and checkpoint,
liquidity `2^128 - 1`, pool tick inside the range. -/
def overflow_whirlpool : Whirlpool :=
  { tick_current_index := 0, fee_growth_global_a := 2 ^ 128 - 1, fee_growth_global_b := 0 }

def overflow_position : Position :=
  { liquidity := 2 ^ 128 - 1
    tick_lower_index := 0
    tick_upper_index := 1
    fee_growth_checkpoint_a := 0
    fee_growth_checkpoint_b := 0
    fee_owed_a := 0
    fee_owed_b := 0 }

def zero_tick : Tick := { fee_growth_outside_a := 0, fee_growth_outside_b := 0 }

/-- C1 counterexample: on a concrete input whose shifted 256-bit product does
not fit in 128 bits, `collect_fees_quote` does not return any value at all —
the `try_into().unwrap()` at line 74 of `fees.rs` panics (modelled as `none`)
— so no typed arithmetic error/result is propagated to the caller. -/
theorem c1_counterexample :
    U128_MAX < delta_wide_a overflow_whirlpool overflow_position zero_tick zero_tick ∧
    collect_fees_quote overflow_whirlpool overflow_position zero_tick zero_tick none none =
      none := by
  constructor <;> decide

/-- C1 (amended): `collect_fees_quote` panics (returns no value, modelled as
`none`) exactly when a shifted 256-bit product does not fit back into 128
bits; in particular it never silently truncates the value and never returns a
default or zero in that case, but the failure is a panic, not a typed
error/result. -/
theorem c1_narrowing_overflow_panics (wp : Whirlpool) (pos : Position) (tl tu : Tick)
    (fa fb : Option TransferFee) :
    collect_fees_quote wp pos tl tu fa fb = none ↔
      (U128_MAX < delta_wide_a wp pos tl tu ∨ U128_MAX < delta_wide_b wp pos tl tu) :=
  collect_fees_quote_eq_none_iff wp pos tl tu fa fb

/-- C9: `collect_fees_quote` performs no validation of the tick range. For
every input with `tick_lower_index ≥ tick_upper_index` the outcome is governed
solely by the arithmetic pipeline: it returns a quote iff both shifted deltas
fit in 128 bits, and the returned quote is assembled by exactly the same
pipeline as for any other input — there is no distinct error outcome for the
invalid range. -/
theorem c9_no_range_validation (wp : Whirlpool) (pos : Position) (tl tu : Tick)
    (fa fb : Option TransferFee)
    (_h : pos.tick_upper_index ≤ pos.tick_lower_index) :
    ((collect_fees_quote wp pos tl tu fa fb).isSome ↔
      delta_wide_a wp pos tl tu ≤ U128_MAX ∧ delta_wide_b wp pos tl tu ≤ U128_MAX) ∧
    (delta_wide_a wp pos tl tu ≤ U128_MAX → delta_wide_b wp pos tl tu ≤ U128_MAX →
      collect_fees_quote wp pos tl tu fa fb =
        some
          { fee_owed_a :=
              adjust_amount (u128_add pos.fee_owed_a (delta_wide_a wp pos tl tu)) fa false
            fee_owed_b :=
              adjust_amount (u128_add pos.fee_owed_b (delta_wide_b wp pos tl tu)) fb false }) := by
  constructor
  · rw [← Option.ne_none_iff_isSome, ne_eq, collect_fees_quote_eq_none_iff]
    omega
  · intro hA hB
    exact collect_fees_quote_eq_some wp pos tl tu fa fb hA hB

/-- A concrete input with an inverted tick range (lower 10, upper 5). -/
def inverted_whirlpool : Whirlpool :=
  { tick_current_index := 7, fee_growth_global_a := 100, fee_growth_global_b := 100 }

def inverted_position : Position :=
  { liquidity := 2 ^ 64
    tick_lower_index := 10
    tick_upper_index := 5
    fee_growth_checkpoint_a := 0
    fee_growth_checkpoint_b := 0
    fee_owed_a := 0
    fee_owed_b := 0 }

/-- Witness for C9: on a concrete inverted-range input the function still
returns a quote computed by the ordinary pipeline. -/
theorem c9_no_range_validation_witness :
    collect_fees_quote inverted_whirlpool inverted_position zero_tick zero_tick none none =
      some { fee_owed_a := 0, fee_owed_b := 0 } := by
  exact (c9_no_range_validation inverted_whirlpool inverted_position zero_tick zero_tick
    none none (by decide)).2 (by decide) (by decide)

/-- An in-range input whose token-A delta is `2^128 - 1` while one token-A
fee is already banked, so the plain `u128` addition at line 77 wraps. -/
def wrap_whirlpool : Whirlpool :=
  { tick_current_index := 0, fee_growth_global_a := 2 ^ 128 - 1, fee_growth_global_b := 0 }

def wrap_position : Position :=
  { liquidity := 2 ^ 64
    tick_lower_index := 0
    tick_upper_index := 1
    fee_growth_checkpoint_a := 0
    fee_growth_checkpoint_b := 0
    fee_owed_a := 1
    fee_owed_b := 0 }

/-- C2 counterexample: the addition of the computed delta to the banked
`fee_owed` at lines 77–78 is a plain unsigned addition, not a checked or
saturating one. On this concrete input the token-A delta is `2^128 - 1` and
the banked amount is 1, so the mathematical sum is `2^128` and the addition
wraps: the function returns 0 for token A. -/
theorem c2_counterexample :
    delta_wide_a wrap_whirlpool wrap_position zero_tick zero_tick = 2 ^ 128 - 1 ∧
    wrap_position.fee_owed_a +
      delta_wide_a wrap_whirlpool wrap_position zero_tick zero_tick = 2 ^ 128 ∧
    collect_fees_quote wrap_whirlpool wrap_position zero_tick zero_tick none none =
      some { fee_owed_a := 0, fee_owed_b := 0 } := by
  refine ⟨by decide, by decide, by decide⟩

/-- C2 (amended): the banked-plus-delta additions are plain unsigned `u128`
additions that reduce modulo `2^128`; whenever the mathematical sum stays
below `2^128` the returned withdrawable amount (before transfer-fee
adjustment, i.e. with both transfer fees `None`) is the exact sum, but for
inputs whose sum reaches `2^128` the addition wraps rather than being checked
or saturated. -/
theorem c2_plain_addition (wp : Whirlpool) (pos : Position) (tl tu : Tick)
    (q : CollectFeesQuote)
    (hq : collect_fees_quote wp pos tl tu none none = some q) :
    q.fee_owed_a = (pos.fee_owed_a + delta_wide_a wp pos tl tu) % 2 ^ 128 ∧
    q.fee_owed_b = (pos.fee_owed_b + delta_wide_b wp pos tl tu) % 2 ^ 128 ∧
    (pos.fee_owed_a + delta_wide_a wp pos tl tu < 2 ^ 128 →
      q.fee_owed_a = pos.fee_owed_a + delta_wide_a wp pos tl tu) ∧
    (pos.fee_owed_b + delta_wide_b wp pos tl tu < 2 ^ 128 →
      q.fee_owed_b = pos.fee_owed_b + delta_wide_b wp pos tl tu) := by
  have hn := collect_fees_quote_eq_none_iff wp pos tl tu none none
  have hA : delta_wide_a wp pos tl tu ≤ U128_MAX := by
    by_contra hc
    rw [hn.mpr (Or.inl (lt_of_not_le hc))] at hq
    simp at hq
  have hB : delta_wide_b wp pos tl tu ≤ U128_MAX := by
    by_contra hc
    rw [hn.mpr (Or.inr (lt_of_not_le hc))] at hq
    simp at hq
  rw [collect_fees_quote_eq_some wp pos tl tu none none hA hB] at hq
  have hq' := (Option.some.inj hq).symm
  subst hq'
  refine ⟨by simp [adjust_amount, u128_add], by simp [adjust_amount, u128_add], ?_, ?_⟩
  · intro hlt
    simp only [adjust_amount, u128_add]
    exact Nat.mod_eq_of_lt hlt
  · intro hlt
    simp only [adjust_amount, u128_add]
    exact Nat.mod_eq_of_lt hlt

/-- Witness for C2 (amended) on the repository's own in-range test fixture:
the returned token-A amount 616 is the exact banked-plus-delta sum. -/
theorem c2_plain_addition_witness :
    (CollectFeesQuote.mk 616 849).fee_owed_a =
      (test_position.fee_owed_a +
        delta_wide_a (test_whirlpool 7) test_position test_tick test_tick) % 2 ^ 128 :=
  (c2_plain_addition (test_whirlpool 7) test_position test_tick test_tick
    (CollectFeesQuote.mk 616 849) (by decide)).1

/-- A below-range input satisfying the claim's hypotheses (global growth at or
above every outside snapshot) on which the token-A delta is nonetheless
nonzero, because the lower boundary's outside snapshot exceeds the upper
boundary's. -/
def below_whirlpool : Whirlpool :=
  { tick_current_index := 0, fee_growth_global_a := 200, fee_growth_global_b := 0 }

def below_position : Position :=
  { liquidity := 2 ^ 64
    tick_lower_index := 5
    tick_upper_index := 10
    fee_growth_checkpoint_a := 0
    fee_growth_checkpoint_b := 0
    fee_owed_a := 0
    fee_owed_b := 0 }

def below_tick_lower : Tick := { fee_growth_outside_a := 100, fee_growth_outside_b := 0 }

def below_tick_upper : Tick := { fee_growth_outside_a := 0, fee_growth_outside_b := 0 }

/-- C6 counterexample: pool tick 0 is strictly below the range [5, 10] and
each global accumulator is at or above every outside snapshot, yet the token-A
delta is 100 (not zero) and the returned amount differs from the banked
amount, because the lower snapshot (100) exceeds the upper snapshot (0). -/
theorem c6_counterexample :
    below_whirlpool.tick_current_index < below_position.tick_lower_index ∧
    below_tick_lower.fee_growth_outside_a ≤ below_whirlpool.fee_growth_global_a ∧
    below_tick_upper.fee_growth_outside_a ≤ below_whirlpool.fee_growth_global_a ∧
    below_tick_lower.fee_growth_outside_b ≤ below_whirlpool.fee_growth_global_b ∧
    below_tick_upper.fee_growth_outside_b ≤ below_whirlpool.fee_growth_global_b ∧
    delta_wide_a below_whirlpool below_position below_tick_lower below_tick_upper = 100 ∧
    collect_fees_quote below_whirlpool below_position below_tick_lower below_tick_upper
        none none =
      some { fee_owed_a := 100, fee_owed_b := 0 } ∧
    below_position.fee_owed_a ≠ 100 := by
  refine ⟨by decide, by decide, by decide, by decide, by decide, by decide, by decide,
    by decide⟩

/-- C6 (amended): when the pool tick is strictly below a well-ordered range
(lower < upper), the global accumulators are at or above the lower boundary's
outside snapshots, and each lower outside snapshot is at most the
corresponding upper outside snapshot, both deltas are zero and (banked
amounts being in `u64` range, as the `fee_owed` field types guarantee) the
quote with no transfer fees equals the banked amounts unchanged. -/
theorem c6_below_range_no_accrual (wp : Whirlpool) (pos : Position) (tl tu : Tick)
    (ht : wp.tick_current_index < pos.tick_lower_index)
    (hr : pos.tick_lower_index < pos.tick_upper_index)
    (hga : tl.fee_growth_outside_a ≤ wp.fee_growth_global_a)
    (hgb : tl.fee_growth_outside_b ≤ wp.fee_growth_global_b)
    (hoa : tl.fee_growth_outside_a ≤ tu.fee_growth_outside_a)
    (hob : tl.fee_growth_outside_b ≤ tu.fee_growth_outside_b)
    (hba : pos.fee_owed_a < 2 ^ 128) (hbb : pos.fee_owed_b < 2 ^ 128) :
    delta_wide_a wp pos tl tu = 0 ∧ delta_wide_b wp pos tl tu = 0 ∧
    collect_fees_quote wp pos tl tu none none =
      some { fee_owed_a := pos.fee_owed_a, fee_owed_b := pos.fee_owed_b } := by
  have htu : ¬ (wp.tick_current_index ≥ pos.tick_upper_index) :=
    not_le.mpr (lt_trans ht hr)
  have hinsA : fee_growth_inside wp.tick_current_index pos.tick_lower_index
      pos.tick_upper_index wp.fee_growth_global_a tl.fee_growth_outside_a
      tu.fee_growth_outside_a = 0 := by
    unfold fee_growth_inside fee_growth_below fee_growth_above u128_saturating_sub
    rw [if_pos ht, if_neg htu]
    omega
  have hinsB : fee_growth_inside wp.tick_current_index pos.tick_lower_index
      pos.tick_upper_index wp.fee_growth_global_b tl.fee_growth_outside_b
      tu.fee_growth_outside_b = 0 := by
    unfold fee_growth_inside fee_growth_below fee_growth_above u128_saturating_sub
    rw [if_pos ht, if_neg htu]
    omega
  have hdA : delta_wide_a wp pos tl tu = 0 := by
    unfold delta_wide_a fee_owed_delta_wide
    rw [hinsA]
    simp [u256_saturating_sub, u256_saturating_mul, u256_shr64]
  have hdB : delta_wide_b wp pos tl tu = 0 := by
    unfold delta_wide_b fee_owed_delta_wide
    rw [hinsB]
    simp [u256_saturating_sub, u256_saturating_mul, u256_shr64]
  refine ⟨hdA, hdB, ?_⟩
  rw [collect_fees_quote_eq_some wp pos tl tu none none (by rw [hdA]; exact Nat.zero_le _)
    (by rw [hdB]; exact Nat.zero_le _), hdA, hdB]
  simp only [adjust_amount, u128_add, Nat.add_zero]
  rw [Nat.mod_eq_of_lt hba, Nat.mod_eq_of_lt hbb]

/-- A below-range input with equal outside snapshots at both boundaries. -/
def below_ok_whirlpool : Whirlpool :=
  { tick_current_index := 0, fee_growth_global_a := 300, fee_growth_global_b := 400 }

def below_ok_position : Position :=
  { liquidity := 2 ^ 64
    tick_lower_index := 5
    tick_upper_index := 10
    fee_growth_checkpoint_a := 123
    fee_growth_checkpoint_b := 0
    fee_owed_a := 7
    fee_owed_b := 9 }

def below_ok_tick : Tick := { fee_growth_outside_a := 50, fee_growth_outside_b := 20 }

/-- Witness for C6 (amended) at a concrete below-range input: the quote is
exactly the banked amounts. -/
theorem c6_below_range_no_accrual_witness :
    collect_fees_quote below_ok_whirlpool below_ok_position below_ok_tick below_ok_tick
        none none =
      some { fee_owed_a := 7, fee_owed_b := 9 } := by
  exact (c6_below_range_no_accrual below_ok_whirlpool below_ok_position below_ok_tick
    below_ok_tick (by decide) (by decide) (by decide) (by decide) (by decide) (by decide)
    (by decide) (by decide)).2.2

/-- An in-range input whose token-B banked-plus-delta sum exceeds the 128-bit
range, so even with both transfer fees `None` the returned amount is not the
exact banked-plus-delta sum. -/
def c7x_whirlpool : Whirlpool :=
  { tick_current_index := 0, fee_growth_global_a := 0, fee_growth_global_b := 2 ^ 128 - 1 }

def c7x_position : Position :=
  { liquidity := 2 ^ 64
    tick_lower_index := 0
    tick_upper_index := 1
    fee_growth_checkpoint_a := 0
    fee_growth_checkpoint_b := 0
    fee_owed_a := 0
    fee_owed_b := 5 }

/-- C7 counterexample: with both transfer fees `None`, on this concrete input
the token-B delta is `2^128 - 1` and the banked amount is 5, and the function
returns 4 for token B — not the banked amount plus the computed delta (which
is `2^128 + 4`), because the plain `u128` addition wraps. -/
theorem c7_counterexample :
    collect_fees_quote c7x_whirlpool c7x_position zero_tick zero_tick none none =
      some { fee_owed_a := 0, fee_owed_b := 4 } ∧
    c7x_position.fee_owed_b +
      delta_wide_b c7x_whirlpool c7x_position zero_tick zero_tick ≠ 4 := by
  refine ⟨by decide, by decide⟩

/-- C7 (amended): adjusting with an absent schedule returns the raw amount
unchanged and adjusting a zero amount yields zero for any schedule and either
direction; consequently, whenever each banked amount plus its computed delta
stays within the 128-bit range, `collect_fees_quote` with both transfer fees
`None` returns exactly banked plus delta for each token, with no deduction. -/
theorem c7_transfer_fee_identities :
    (∀ (amt : Nat) (inv : Bool), adjust_amount amt none inv = amt) ∧
    (∀ (tf : TransferFee) (inv : Bool), adjust_amount 0 (some tf) inv = 0) ∧
    (∀ (wp : Whirlpool) (pos : Position) (tl tu : Tick),
      pos.fee_owed_a + delta_wide_a wp pos tl tu ≤ U128_MAX →
      pos.fee_owed_b + delta_wide_b wp pos tl tu ≤ U128_MAX →
      collect_fees_quote wp pos tl tu none none =
        some
          { fee_owed_a := pos.fee_owed_a + delta_wide_a wp pos tl tu
            fee_owed_b := pos.fee_owed_b + delta_wide_b wp pos tl tu }) := by
  refine ⟨fun amt inv => rfl, ?_, ?_⟩
  · intro tf inv
    cases inv <;> simp [adjust_amount]
  · intro wp pos tl tu hA hB
    have hA' : delta_wide_a wp pos tl tu ≤ U128_MAX :=
      le_trans (Nat.le_add_left _ _) hA
    have hB' : delta_wide_b wp pos tl tu ≤ U128_MAX :=
      le_trans (Nat.le_add_left _ _) hB
    rw [collect_fees_quote_eq_some wp pos tl tu none none hA' hB']
    have hltA : pos.fee_owed_a + delta_wide_a wp pos tl tu < 2 ^ 128 := by
      unfold U128_MAX at hA
      omega
    have hltB : pos.fee_owed_b + delta_wide_b wp pos tl tu < 2 ^ 128 := by
      unfold U128_MAX at hB
      omega
    simp only [adjust_amount, u128_add]
    rw [Nat.mod_eq_of_lt hltA, Nat.mod_eq_of_lt hltB]

/-- An in-range input with small growth values for the C7 witness. -/
def c7w_whirlpool : Whirlpool :=
  { tick_current_index := 1, fee_growth_global_a := 2 ^ 64, fee_growth_global_b := 2 ^ 65 }

def c7w_position : Position :=
  { liquidity := 3
    tick_lower_index := 0
    tick_upper_index := 2
    fee_growth_checkpoint_a := 0
    fee_growth_checkpoint_b := 2 ^ 64
    fee_owed_a := 10
    fee_owed_b := 20 }

/-- Witness for C7 (amended) at a concrete input: deltas of 3 per token on top
of banked 10 and 20 give exactly 13 and 23 with no deduction. -/
theorem c7_transfer_fee_identities_witness :
    collect_fees_quote c7w_whirlpool c7w_position zero_tick zero_tick none none =
      some { fee_owed_a := 13, fee_owed_b := 23 } := by
  exact c7_transfer_fee_identities.2.2 c7w_whirlpool c7w_position zero_tick zero_tick
    (by decide) (by decide)

end Whirlpools
